import Mathlib

/-!
Shallow embedding of the frame-evaluation and stabilization state machine of
`src/App.tsx` (FaceDetection-Prototype).  Metrics and thresholds are modelled
as exact rationals; the asynchronous evaluation cycle is split into its
synchronous guard (`analyzeFrame`) and the post-await continuation
(`finishCycle`) so that interleavings with `resetCheck` can be stated.
-/

/-! Threshold configuration, `THRESHOLDS` in `src/App.tsx` lines 19-27. -/

namespace THRESHOLDS

def CENTER_TOLERANCE : ℚ := 0.22

def HEAD_YAW_LIMIT : ℚ := 18

def HEAD_ROLL_LIMIT : ℚ := 15

def EYE_OPEN_THRESHOLD : ℚ := 0.4

def EXPRESSION_THRESHOLD : ℚ := 0.12

def MIN_FACE_SIZE : ℚ := 0.15

def MAX_FACE_SIZE : ℚ := 0.80

end THRESHOLDS

/-- Per-criterion status, `CheckStatus` in `src/App.tsx` line 29. -/
inductive CheckStatus where
  | checking : CheckStatus
  | pass : CheckStatus
  | fail : CheckStatus
deriving DecidableEq, Repr

/-- One checklist entry, `ChecklistItem` in `src/App.tsx` lines 31-37. -/
structure ChecklistItem where
  id : String
  label : String
  status : CheckStatus
  detail : String
  icon : String
deriving DecidableEq, Repr

/-- The five-entry checklist array (indices 0-4 of the `checklist` state). -/
structure Checklist where
  face : ChecklistItem
  framing : ChecklistItem
  eyeContact : ChecklistItem
  expression : ChecklistItem
  headPosition : ChecklistItem
deriving DecidableEq, Repr

/-- Initial checklist, `src/App.tsx` lines 47-53 (identical at lines 231-237). -/
def initialChecklist : Checklist :=
  { face := { id := "face", label := "Face Detected", status := .checking, detail := "Looking...", icon := "👤" }
    framing := { id := "framing", label := "Face Centered", status := .checking, detail := "Checking...", icon := "📐" }
    eyeContact := { id := "eyeContact", label := "Eye Contact", status := .checking, detail := "Checking...", icon := "👀" }
    expression := { id := "expression", label := "Good Expression", status := .checking, detail := "Checking...", icon := "😊" }
    headPosition := { id := "headPosition", label := "Head Position", status := .checking, detail := "Checking...", icon := "🎯" } }

/-- Bounding box of a detected face (`face.frame`), pixel space. -/
structure FaceFrame where
  left : ℚ
  top : ℚ
  width : ℚ
  height : ℚ
deriving DecidableEq, Repr

/-- One detector result entry; every classification field is optional,
mirroring the `??` default chains at `src/App.tsx` lines 122-126. -/
structure Face where
  frame : FaceFrame
  headEulerAngleY : Option ℚ
  yawAngle : Option ℚ
  headEulerAngleZ : Option ℚ
  rollAngle : Option ℚ
  smilingProbability : Option ℚ
  leftEyeOpenProbability : Option ℚ
  rightEyeOpenProbability : Option ℚ
deriving DecidableEq, Repr

/-- Per-frame metrics derived from the primary face, `src/App.tsx` lines 118-126. -/
structure FaceMetrics where
  faceCenterX : ℚ
  faceCenterY : ℚ
  faceWidthFrac : ℚ
  yawAngle : ℚ
  rollAngle : ℚ
  smileProb : ℚ
  leftEyeOpen : ℚ
  rightEyeOpen : ℚ
deriving DecidableEq, Repr

/-- Metric extraction from the first face, `src/App.tsx` lines 116-126
(`faceWidthFrac` embeds the source's `faceWidthRatio`). -/
def extractMetrics (face : Face) (photoWidth photoHeight : ℚ) : FaceMetrics :=
  { faceCenterX := (face.frame.left + face.frame.width / 2) / photoWidth
    faceCenterY := (face.frame.top + face.frame.height / 2) / photoHeight
    faceWidthFrac := face.frame.width / photoWidth
    yawAngle := face.headEulerAngleY.getD (face.yawAngle.getD 0)
    rollAngle := face.headEulerAngleZ.getD (face.rollAngle.getD 0)
    smileProb := face.smilingProbability.getD 0
    leftEyeOpen := face.leftEyeOpenProbability.getD 0.8
    rightEyeOpen := face.rightEyeOpenProbability.getD 0.8 }

/-- `centered`, `src/App.tsx` line 135: both center offsets within tolerance,
the vertical bound 0.1 looser than the horizontal one. -/
def centeredCond (m : FaceMetrics) : Prop :=
  |m.faceCenterX - 0.5| < THRESHOLDS.CENTER_TOLERANCE ∧
    |m.faceCenterY - 0.5| < THRESHOLDS.CENTER_TOLERANCE + 0.1

instance (m : FaceMetrics) : Decidable (centeredCond m) := by
  unfold centeredCond; infer_instance

/-- `goodSize`, `src/App.tsx` line 136: width ratio within the inclusive range. -/
def goodSizeCond (m : FaceMetrics) : Prop :=
  m.faceWidthFrac ≥ THRESHOLDS.MIN_FACE_SIZE ∧ m.faceWidthFrac ≤ THRESHOLDS.MAX_FACE_SIZE

instance (m : FaceMetrics) : Decidable (goodSizeCond m) := by
  unfold goodSizeCond; infer_instance

/-- `eyesOk`, `src/App.tsx` line 149: both eye-open probabilities above threshold. -/
def eyesOkCond (m : FaceMetrics) : Prop :=
  m.leftEyeOpen > THRESHOLDS.EYE_OPEN_THRESHOLD ∧ m.rightEyeOpen > THRESHOLDS.EYE_OPEN_THRESHOLD

instance (m : FaceMetrics) : Decidable (eyesOkCond m) := by
  unfold eyesOkCond; infer_instance

/-- `lookingOk`, `src/App.tsx` line 150: absolute yaw under the limit. -/
def lookingOkCond (m : FaceMetrics) : Prop :=
  |m.yawAngle| < THRESHOLDS.HEAD_YAW_LIMIT

instance (m : FaceMetrics) : Decidable (lookingOkCond m) := by
  unfold lookingOkCond; infer_instance

/-- Criterion evaluation for a present face, `src/App.tsx` lines 128-172.
Returns the new checklist and the local `passCount`. -/
def evalFromMetrics (m : FaceMetrics) (checklist : Checklist) : Checklist × Nat :=
  let c0 : ChecklistItem := { checklist.face with status := .pass, detail := "Visible" }
  let c1 : ChecklistItem :=
    if centeredCond m ∧ goodSizeCond m then
      { checklist.framing with status := .pass, detail := "Perfect" }
    else
      let hint : String :=
        if ¬ centeredCond m then
          (if |m.faceCenterX - 0.5| > |m.faceCenterY - 0.5| then
             (if m.faceCenterX < 0.5 then "Move right" else "Move left")
           else (if m.faceCenterY < 0.5 then "Move down" else "Move up"))
        else (if m.faceWidthFrac < THRESHOLDS.MIN_FACE_SIZE then "Move closer" else "Move back")
      { checklist.framing with status := .fail, detail := hint }
  let c2 : ChecklistItem :=
    if eyesOkCond m ∧ lookingOkCond m then
      { checklist.eyeContact with status := .pass, detail := "Great!" }
    else { checklist.eyeContact with
           status := .fail
           detail := if ¬ eyesOkCond m then "Open eyes" else "Look at camera" }
  let c3 : ChecklistItem :=
    if m.smileProb > THRESHOLDS.EXPRESSION_THRESHOLD then
      { checklist.expression with
        status := .pass
        detail := if m.smileProb > 0.5 then "Great energy!" else "Engaged" }
    else { checklist.expression with status := .fail, detail := "Smile a bit" }
  let c4 : ChecklistItem :=
    if |m.rollAngle| < THRESHOLDS.HEAD_ROLL_LIMIT then
      { checklist.headPosition with status := .pass, detail := "Good" }
    else { checklist.headPosition with status := .fail, detail := "Straighten head" }
  let passCount : Nat := 1
    + (if centeredCond m ∧ goodSizeCond m then 1 else 0)
    + (if eyesOkCond m ∧ lookingOkCond m then 1 else 0)
    + (if m.smileProb > THRESHOLDS.EXPRESSION_THRESHOLD then 1 else 0)
    + (if |m.rollAngle| < THRESHOLDS.HEAD_ROLL_LIMIT then 1 else 0)
  ({ face := c0, framing := c1, eyeContact := c2, expression := c3, headPosition := c4 }, passCount)

/-- The no-face branch, `src/App.tsx` lines 174-177: criterion 1 fails, the
other four are forced back to `checking`. -/
def noFaceChecklist (checklist : Checklist) : Checklist :=
  { face := { checklist.face with status := .fail, detail := "Not found" }
    framing := { checklist.framing with status := .checking, detail := "Need face" }
    eyeContact := { checklist.eyeContact with status := .checking, detail := "Need face" }
    expression := { checklist.expression with status := .checking, detail := "Need face" }
    headPosition := { checklist.headPosition with status := .checking, detail := "Need face" } }

/-- Full per-frame evaluation, `src/App.tsx` lines 112-177: branch on
`faces.length > 0`, consume only the first entry. -/
def evalChecklist (faces : List Face) (photoWidth photoHeight : ℚ)
    (checklist : Checklist) : Checklist × Nat :=
  match faces with
  | [] => (noFaceChecklist checklist, 0)
  | face :: _ => evalFromMetrics (extractMetrics face photoWidth photoHeight) checklist

/-- Streak update, `src/App.tsx` lines 181-188: on a full pass the streak is
incremented and readiness latches once the previous streak was ≥ 2; any other
cycle resets the streak to 0. -/
def streakUpdate (passCount : Nat) (prev : Nat) (allChecksPassed : Bool) : Nat × Bool :=
  if passCount = 5 then (prev + 1, allChecksPassed || decide (2 ≤ prev))
  else (0, allChecksPassed)

/-- Component state relevant to the sampling loop. -/
structure AppState where
  isReady : Bool
  cameraReady : Bool
  allChecksPassed : Bool
  passStreak : Nat
  checklist : Checklist
  isCapturing : Bool
  cameraRefPresent : Bool
deriving DecidableEq, Repr

/-- Outcome of the awaited capture + detection work of one cycle. -/
inductive CycleInput where
  | noFrame : CycleInput
  | throwErr : CycleInput
  | detected (faces : List Face) (photoWidth photoHeight : ℚ) : CycleInput
deriving DecidableEq, Repr

/-- Post-await continuation of `analyzeFrame`, `src/App.tsx` lines 100-195:
a missing frame handle or a thrown error abandons the cycle (only clearing the
in-flight flag); otherwise the checklist computed from the `captured` closure
checklist is stored and the streak updated.  No guard is re-checked here,
exactly as in the source. -/
def finishCycle (inp : CycleInput) (captured : Checklist) (st : AppState) : AppState :=
  match inp with
  | .noFrame => { st with isCapturing := false }
  | .throwErr => { st with isCapturing := false }
  | .detected faces w h =>
    let r := evalChecklist faces w h captured
    let s := streakUpdate r.2 st.passStreak st.allChecksPassed
    { st with checklist := r.1, passStreak := s.1, allChecksPassed := s.2, isCapturing := false }

/-- One whole evaluation cycle, `src/App.tsx` lines 84-196: the guard at line
86 drops the trigger (returning the state unchanged and `false` for "no
capture started") unless the camera ref exists, the camera is ready, no cycle
is in flight and readiness has not latched. -/
def analyzeFrame (inp : CycleInput) (st : AppState) : AppState × Bool :=
  if st.cameraRefPresent && st.cameraReady && !st.isCapturing && !st.allChecksPassed then
    (finishCycle inp st.checklist { st with isCapturing := true }, true)
  else (st, false)

/-- `resetCheck`, `src/App.tsx` lines 222-238. -/
def resetCheck (st : AppState) : AppState :=
  { st with
    isReady := false
    allChecksPassed := false
    passStreak := 0
    isCapturing := false
    checklist := initialChecklist }

/-- `startCheck`, `src/App.tsx` lines 216-220. -/
def startCheck (st : AppState) : AppState :=
  { st with isReady := true, allChecksPassed := false, passStreak := 0 }

/-- Stabilization tracker run over the sequence of per-cycle pass counts:
cycles fired after readiness latched are dropped by the line-86 guard. -/
def runTracker (passStreak : Nat) (allChecksPassed : Bool) : List Nat → Nat × Bool
  | [] => (passStreak, allChecksPassed)
  | passCount :: rest =>
    if allChecksPassed then runTracker passStreak allChecksPassed rest
    else
      let s := streakUpdate passCount passStreak allChecksPassed
      runTracker s.1 s.2 rest

/-- Specification predicate: the run contains three consecutive full-pass
cycles (pass count 5). -/
def hasThreeConsecutiveFullPass : List Nat → Bool
  | a :: b :: c :: rest =>
    (decide (a = 5) && decide (b = 5) && decide (c = 5)) ||
      hasThreeConsecutiveFullPass (b :: c :: rest)
  | _ => false

/-- Number of leading full-pass cycles of a run. -/
def leadingFullPassCount : List Nat → Nat
  | [] => 0
  | c :: rest => if c = 5 then leadingFullPassCount rest + 1 else 0

/-- Readiness of the tracker, phrased as a recursion over the run with the
current streak as accumulator. -/
def readySpec : Nat → List Nat → Bool
  | _, [] => false
  | streak, passCount :: rest =>
    if passCount = 5 then decide (2 ≤ streak) || readySpec (streak + 1) rest
    else readySpec 0 rest

/-- A 100x100-pixel frame with a centered 30-pixel-wide face box. -/
def sampleFrame : FaceFrame := { left := 35, top := 35, width := 30, height := 30 }

/-- A detector result that passes all five criteria at the default
thresholds (center 0.5/0.5, width ratio 0.3, smile 0.6, eyes 0.9). -/
def centeredFace : Face :=
  { frame := sampleFrame
    headEulerAngleY := none
    yawAngle := none
    headEulerAngleZ := none
    rollAngle := none
    smilingProbability := some 0.6
    leftEyeOpenProbability := some 0.9
    rightEyeOpenProbability := some 0.9 }

/-- A detector result with every optional classification field absent. -/
def bareFace : Face :=
  { frame := sampleFrame
    headEulerAngleY := none
    yawAngle := none
    headEulerAngleZ := none
    rollAngle := none
    smilingProbability := none
    leftEyeOpenProbability := none
    rightEyeOpenProbability := none }

/-- A session in the Sampling phase, two cycles into a streak. -/
def samplingState : AppState :=
  { isReady := true
    cameraReady := true
    allChecksPassed := false
    passStreak := 2
    checklist := initialChecklist
    isCapturing := false
    cameraRefPresent := true }

/-- The sampling session with a cycle in flight. -/
def inflightState : AppState := { samplingState with isCapturing := true }

/-- A session whose readiness has latched. -/
def readyState : AppState := { samplingState with allChecksPassed := true, passStreak := 3 }

/-- State after stop/reset was issued while a cycle was in flight. -/
def inFlightAfterStop : AppState := resetCheck { samplingState with isCapturing := true }

/-- State after the in-flight cycle's detection result, captured before the
reset, is delivered to the post-await continuation. -/
def staleDelivered : AppState :=
  finishCycle (CycleInput.detected [centeredFace] 100 100) samplingState.checklist inFlightAfterStop

/-- Metrics of `centeredFace` in a 100x100 photo. -/
def sampleMetrics : FaceMetrics := extractMetrics centeredFace 100 100

/-- The same metrics with the head turned 20 degrees. -/
def yawedMetrics : FaceMetrics := { sampleMetrics with yawAngle := 20 }

/-- The same metrics with the left eye nearly closed. -/
def closedEyeMetrics : FaceMetrics := { sampleMetrics with leftEyeOpen := 0.1 }

theorem runTracker_of_ready (counts : List Nat) (streak : Nat) :
    runTracker streak true counts = (streak, true) := by
  induction counts with
  | nil => rfl
  | cons c rest ih => simpa [runTracker] using ih

theorem runTracker_eq_readySpec (counts : List Nat) :
    ∀ streak, (runTracker streak false counts).2 = readySpec streak counts := by
  induction counts with
  | nil => intro streak; rfl
  | cons c rest ih =>
    intro streak
    by_cases hc : c = 5
    · subst hc
      by_cases hs : 2 ≤ streak
      · simp [runTracker, streakUpdate, readySpec, hs, runTracker_of_ready]
      · simp [runTracker, streakUpdate, readySpec, hs, ih]
    · simp [runTracker, streakUpdate, readySpec, hc, ih]

theorem hasThree_of_leading (counts : List Nat) (h3 : 3 ≤ leadingFullPassCount counts) :
    hasThreeConsecutiveFullPass counts = true := by
  match counts with
  | [] => simp [leadingFullPassCount] at h3
  | [a] =>
    by_cases ha : a = 5 <;> simp [leadingFullPassCount, ha] at h3
  | [a, b] =>
    by_cases ha : a = 5 <;> by_cases hb : b = 5 <;>
      simp [leadingFullPassCount, ha, hb] at h3
  | a :: b :: c :: rest =>
    by_cases ha : a = 5
    · by_cases hb : b = 5
      · by_cases hc : c = 5
        · simp [hasThreeConsecutiveFullPass, ha, hb, hc]
        · simp [leadingFullPassCount, ha, hb, hc] at h3
      · simp [leadingFullPassCount, ha, hb] at h3
    · simp [leadingFullPassCount, ha] at h3

theorem hasThree_cons_five (rest : List Nat) :
    hasThreeConsecutiveFullPass (5 :: rest) =
      (decide (2 ≤ leadingFullPassCount rest) || hasThreeConsecutiveFullPass rest) := by
  match rest with
  | [] => simp [hasThreeConsecutiveFullPass, leadingFullPassCount]
  | [b] =>
    by_cases hb : b = 5 <;>
      simp [hasThreeConsecutiveFullPass, leadingFullPassCount, hb]
  | b :: c :: t =>
    by_cases hb : b = 5
    · by_cases hc : c = 5
      · subst hb; subst hc
        have h2 : 2 ≤ leadingFullPassCount t + 1 + 1 := by omega
        simp [hasThreeConsecutiveFullPass, leadingFullPassCount, h2]
    
      · subst hb
        have hlead : leadingFullPassCount (5 :: c :: t) = 1 := by
          simp [leadingFullPassCount, hc]
        simp [hasThreeConsecutiveFullPass, hlead, hc]
    · have hlead : leadingFullPassCount (b :: c :: t) = 0 := by
        simp [leadingFullPassCount, hb]
      simp [hasThreeConsecutiveFullPass, hlead, hb]

theorem hasThree_cons_of_ne (a : Nat) (rest : List Nat) (ha : a ≠ 5) :
    hasThreeConsecutiveFullPass (a :: rest) = hasThreeConsecutiveFullPass rest := by
  match rest with
  | [] => simp [hasThreeConsecutiveFullPass]
  | [b] => simp [hasThreeConsecutiveFullPass]
  | b :: c :: t => simp [hasThreeConsecutiveFullPass, ha]

theorem readySpec_characterization (counts : List Nat) :
    ∀ streak, streak ≤ 2 →
      readySpec streak counts =
        (decide (3 ≤ leadingFullPassCount counts + streak) ||
          hasThreeConsecutiveFullPass counts) := by
  induction counts with
  | nil =>
    intro streak hs
    have hnot : ¬ (3 ≤ leadingFullPassCount ([] : List Nat) + streak) := by
      simp [leadingFullPassCount]; omega
    simp [readySpec, hasThreeConsecutiveFullPass, hnot]
  | cons c rest ih =>
    intro streak hs
    by_cases hc : c = 5
    · subst hc
      rw [hasThree_cons_five]
      have hlead : leadingFullPassCount (5 :: rest) = leadingFullPassCount rest + 1 := by
        simp [leadingFullPassCount]
      by_cases h2 : 2 ≤ streak
      · have hle : 3 ≤ leadingFullPassCount (5 :: rest) + streak := by
          rw [hlead]; omega
        simp [readySpec, h2, hle]
      · have hs1 : streak + 1 ≤ 2 := by omega
        have hnot2 : decide (2 ≤ streak) = false := by simp [h2]
        rw [hlead]
        simp only [readySpec, if_pos rfl, hnot2, Bool.false_or]
        rw [ih (streak + 1) hs1]
        by_cases hlf : 2 ≤ leadingFullPassCount rest
        · have ha : 3 ≤ leadingFullPassCount rest + (streak + 1) := by omega
          have hb : 3 ≤ leadingFullPassCount rest + 1 + streak := by omega
          simp [ha, hb, hlf]
        · have harg : leadingFullPassCount rest + (streak + 1) =
              leadingFullPassCount rest + 1 + streak := by omega
          have hd : decide (2 ≤ leadingFullPassCount rest) = false := by simp [hlf]
          rw [harg, hd]
          simp
    · rw [hasThree_cons_of_ne c rest hc]
      have h0 : readySpec streak (c :: rest) = readySpec 0 rest := by
        simp [readySpec, hc]
      rw [h0, ih 0 (by omega)]
      have hlead : leadingFullPassCount (c :: rest) = 0 := by
        simp [leadingFullPassCount, hc]
      have hns : decide (3 ≤ leadingFullPassCount (c :: rest) + streak) = false := by
        rw [hlead]; simp; omega
      rw [hns]
      simp only [Bool.false_or, Nat.add_zero]
      by_cases hlf : 3 ≤ leadingFullPassCount rest
      · rw [hasThree_of_leading rest hlf]
        simp
      · have hd : decide (3 ≤ leadingFullPassCount rest) = false := by simp [hlf]
        rw [hd]; simp

theorem runTracker_ready_iff (counts : List Nat) :
    (runTracker 0 false counts).2 = hasThreeConsecutiveFullPass counts := by
  rw [runTracker_eq_readySpec counts 0, readySpec_characterization counts 0 (by omega)]
  by_cases hlf : 3 ≤ leadingFullPassCount counts + 0
  · rw [hasThree_of_leading counts (by omega)]
    simp [hlf]
  · have hd : decide (3 ≤ leadingFullPassCount counts + 0) = false := by simp [hlf]; omega
    rw [hd]; simp

/-- Claim C1: over any sequence of evaluation cycles the readiness flag
(`allChecksPassed`) is false while fewer than 3 consecutive full-pass cycles
have occurred, becomes true exactly when a run of 3 consecutive cycles with
pass count 5 completes, and any executed cycle with pass count below 5 resets
the streak counter to 0 (leaving the readiness flag as it was). -/
theorem stabilization_correct (counts : List Nat) :
    ((runTracker 0 false counts).2 = hasThreeConsecutiveFullPass counts)
    ∧ (∀ passCount prev passed, passCount < 5 →
        streakUpdate passCount prev passed = (0, passed)) := by
  refine ⟨runTracker_ready_iff counts, ?_⟩
  intro pc prev passed hpc
  have hne : pc ≠ 5 := Nat.ne_of_lt hpc
  simp [streakUpdate, hne]

/-- Witness for C1 at the concrete runs [5,5,5] and a failing cycle. -/
theorem stabilization_correct_witness :
    ((runTracker 0 false [5, 5, 5]).2 = hasThreeConsecutiveFullPass [5, 5, 5])
    ∧ streakUpdate 4 2 false = (0, false) :=
  ⟨(stabilization_correct [5, 5, 5]).1,
    (stabilization_correct [5, 5, 5]).2 4 2 false (by omega)⟩

/-- Claim C2, counterexample: with two detector faces the face criterion is
set to `pass` (the source only tests `faces.length > 0`), contradicting the
claim that it fails unless exactly one face was returned. -/
theorem face_pass_with_two_faces :
    (evalChecklist [centeredFace, centeredFace] 100 100 initialChecklist).1.face.status
        = CheckStatus.pass
    ∧ ([centeredFace, centeredFace] : List Face).length ≠ 1 := by
  exact ⟨rfl, by simp⟩

/-- Claim C2 (amended): the face criterion passes iff the detector returned at
least one face, and fails iff it returned none. -/
theorem face_pass_iff_face_present (faces : List Face) (w h : ℚ) (cl : Checklist) :
    ((evalChecklist faces w h cl).1.face.status = CheckStatus.pass ↔ faces ≠ [])
    ∧ ((evalChecklist faces w h cl).1.face.status = CheckStatus.fail ↔ faces = []) := by
  cases faces <;> simp [evalChecklist, noFaceChecklist, evalFromMetrics]

/-- Claim C3: the source re-checks no guard after its awaits, so a detection
result delivered after stop/reset IS applied: from the freshly reset state the
stale cycle flips criterion 1 to `pass` and sets the streak to 1. -/
theorem stale_result_applied_after_stop :
    inFlightAfterStop.checklist.face.status = CheckStatus.checking
    ∧ inFlightAfterStop.passStreak = 0
    ∧ staleDelivered.checklist.face.status = CheckStatus.pass
    ∧ staleDelivered.passStreak = 1
    ∧ staleDelivered.checklist ≠ inFlightAfterStop.checklist := by
  refine ⟨rfl, rfl, rfl, ?_, ?_⟩
  · norm_num [staleDelivered, finishCycle, inFlightAfterStop, resetCheck, samplingState,
      evalChecklist, evalFromMetrics, extractMetrics, centeredFace, sampleFrame, streakUpdate,
      centeredCond, goodSizeCond, eyesOkCond, lookingOkCond,
      THRESHOLDS.CENTER_TOLERANCE, THRESHOLDS.HEAD_YAW_LIMIT, THRESHOLDS.HEAD_ROLL_LIMIT,
      THRESHOLDS.EYE_OPEN_THRESHOLD, THRESHOLDS.EXPRESSION_THRESHOLD,
      THRESHOLDS.MIN_FACE_SIZE, THRESHOLDS.MAX_FACE_SIZE]
  · intro hEq
    have h1 : staleDelivered.checklist.face.status = CheckStatus.pass := rfl
    rw [hEq] at h1
    exact CheckStatus.noConfusion h1

/-- Claim C4: a cycle whose detector succeeds with zero faces leaves exactly
criterion 1 at `fail`, criteria 2-5 at `checking`, and resets the streak to 0,
for any prior checklist and state. -/
theorem no_face_forces_fail_and_checking (captured : Checklist) (w h : ℚ) (st : AppState) :
    finishCycle (CycleInput.detected [] w h) captured st =
      { st with checklist := noFaceChecklist captured, passStreak := 0, isCapturing := false }
    ∧ (noFaceChecklist captured).face.status = CheckStatus.fail
    ∧ (noFaceChecklist captured).framing.status = CheckStatus.checking
    ∧ (noFaceChecklist captured).eyeContact.status = CheckStatus.checking
    ∧ (noFaceChecklist captured).expression.status = CheckStatus.checking
    ∧ (noFaceChecklist captured).headPosition.status = CheckStatus.checking := by
  refine ⟨?_, rfl, rfl, rfl, rfl, rfl⟩
  simp [finishCycle, evalChecklist, streakUpdate]

/-- Claim C5: with a face present, the framing criterion passes iff the face
center is strictly within tolerance horizontally, strictly within
tolerance + 0.1 vertically, and the width ratio lies inside the inclusive
range [minFaceSize, maxFaceSize]. -/
theorem framing_pass_iff (m : FaceMetrics) (cl : Checklist) :
    (evalFromMetrics m cl).1.framing.status = CheckStatus.pass ↔
      (|m.faceCenterX - 0.5| < THRESHOLDS.CENTER_TOLERANCE ∧
       |m.faceCenterY - 0.5| < THRESHOLDS.CENTER_TOLERANCE + 0.1 ∧
       THRESHOLDS.MIN_FACE_SIZE ≤ m.faceWidthFrac ∧
       m.faceWidthFrac ≤ THRESHOLDS.MAX_FACE_SIZE) := by
  have hmain : (evalFromMetrics m cl).1.framing.status = CheckStatus.pass ↔
      (centeredCond m ∧ goodSizeCond m) := by
    by_cases hcg : centeredCond m ∧ goodSizeCond m <;> simp [evalFromMetrics, hcg]
  rw [hmain]
  unfold centeredCond goodSizeCond
  rw [ge_iff_le]
  tauto

/-- Claim C6: the eye-contact criterion fails whenever the absolute yaw is at
or above the limit, regardless of the eye-open values; it passes iff both eyes
are open beyond the threshold and the absolute yaw is under the limit; and on
failure the eyes-closed hint takes priority over the look-at-camera hint. -/
theorem eyeContact_correct (m : FaceMetrics) (cl : Checklist) :
    (THRESHOLDS.HEAD_YAW_LIMIT ≤ |m.yawAngle| →
      (evalFromMetrics m cl).1.eyeContact.status = CheckStatus.fail)
    ∧ ((evalFromMetrics m cl).1.eyeContact.status = CheckStatus.pass ↔
        (m.leftEyeOpen > THRESHOLDS.EYE_OPEN_THRESHOLD ∧
         m.rightEyeOpen > THRESHOLDS.EYE_OPEN_THRESHOLD ∧
         |m.yawAngle| < THRESHOLDS.HEAD_YAW_LIMIT))
    ∧ (¬ eyesOkCond m → (evalFromMetrics m cl).1.eyeContact.detail = "Open eyes")
    ∧ (eyesOkCond m → ¬ lookingOkCond m →
        (evalFromMetrics m cl).1.eyeContact.detail = "Look at camera") := by
  refine ⟨?_, ?_, ?_, ?_⟩
  · intro hy
    have hno : ¬ (eyesOkCond m ∧ lookingOkCond m) := by
      rintro ⟨-, hl⟩
      exact absurd hl (not_lt.mpr hy)
    simp [evalFromMetrics, hno]
  · have hiff : (evalFromMetrics m cl).1.eyeContact.status = CheckStatus.pass ↔
        (eyesOkCond m ∧ lookingOkCond m) := by
      by_cases hel : eyesOkCond m ∧ lookingOkCond m <;> simp [evalFromMetrics, hel]
    rw [hiff]
    unfold eyesOkCond lookingOkCond
    tauto
  · intro he
    have hno : ¬ (eyesOkCond m ∧ lookingOkCond m) := fun hc => he hc.1
    simp [evalFromMetrics, hno, he]
  · intro he hl
    have hno : ¬ (eyesOkCond m ∧ lookingOkCond m) := fun hc => hl hc.2
    simp [evalFromMetrics, hno, he, hl]

/-- Witness for C6 at concrete metrics: yaw 20 fails despite open eyes and
yields the look-at-camera hint; a nearly closed eye yields the eyes-open hint. -/
theorem eyeContact_correct_witness :
    (evalFromMetrics yawedMetrics initialChecklist).1.eyeContact.status = CheckStatus.fail
    ∧ (evalFromMetrics yawedMetrics initialChecklist).1.eyeContact.detail = "Look at camera"
    ∧ (evalFromMetrics closedEyeMetrics initialChecklist).1.eyeContact.detail = "Open eyes" := by
  refine ⟨(eyeContact_correct yawedMetrics initialChecklist).1 ?_,
    (eyeContact_correct yawedMetrics initialChecklist).2.2.2 ?_ ?_,
    (eyeContact_correct closedEyeMetrics initialChecklist).2.2.1 ?_⟩
  · norm_num [yawedMetrics, sampleMetrics, extractMetrics, centeredFace,
      THRESHOLDS.HEAD_YAW_LIMIT]
  · norm_num [eyesOkCond, yawedMetrics, sampleMetrics, extractMetrics, centeredFace,
      THRESHOLDS.EYE_OPEN_THRESHOLD]
  · norm_num [lookingOkCond, yawedMetrics, sampleMetrics, extractMetrics, centeredFace,
      THRESHOLDS.HEAD_YAW_LIMIT]
  · norm_num [eyesOkCond, closedEyeMetrics, sampleMetrics, extractMetrics, centeredFace,
      THRESHOLDS.EYE_OPEN_THRESHOLD]

/-- Claim C7: a cycle whose capture returns no frame handle, or whose awaited
work throws, leaves the whole state unchanged (the embedding is total, so the
error never escapes the cycle). -/
theorem abandoned_cycle_no_mutation (st : AppState) :
    (analyzeFrame CycleInput.noFrame st).1 = st
    ∧ (analyzeFrame CycleInput.throwErr st).1 = st := by
  obtain ⟨a, b, c, d, e, f, g⟩ := st
  constructor <;>
  · simp only [analyzeFrame, finishCycle]
    split
    · next hguard =>
      simp only [Bool.and_eq_true, Bool.not_eq_true'] at hguard
      obtain ⟨⟨⟨-, -⟩, hf⟩, -⟩ := hguard
      subst hf
      rfl
    · rfl

/-- Claim C8: a periodic trigger that fires while the in-flight flag is set is
a no-op: the state is untouched and the `false` component records that no
capture or detection was started. -/
theorem inflight_trigger_dropped (inp : CycleInput) (st : AppState)
    (h : st.isCapturing = true) :
    analyzeFrame inp st = (st, false) := by
  simp [analyzeFrame, h]

/-- Witness for C8 at a concrete in-flight state. -/
theorem inflight_trigger_dropped_witness :
    analyzeFrame CycleInput.noFrame inflightState = (inflightState, false) :=
  inflight_trigger_dropped CycleInput.noFrame inflightState rfl

/-- Claim C9: once `allChecksPassed` is true, every further trigger is a
no-op (no checklist or streak mutation, no capture started) and the flag stays
true, until an explicit reset. -/
theorem ready_latched (inp : CycleInput) (st : AppState)
    (h : st.allChecksPassed = true) :
    analyzeFrame inp st = (st, false)
    ∧ (analyzeFrame inp st).1.allChecksPassed = true := by
  have hmain : analyzeFrame inp st = (st, false) := by simp [analyzeFrame, h]
  exact ⟨hmain, by rw [hmain]; exact h⟩

/-- Witness for C9 at a concrete ready state. -/
theorem ready_latched_witness :
    analyzeFrame CycleInput.noFrame readyState = (readyState, false)
    ∧ (analyzeFrame CycleInput.noFrame readyState).1.allChecksPassed = true :=
  ready_latched CycleInput.noFrame readyState rfl

/-- Claim C10: an absent smile-probability field defaults to 0, so the
expression criterion fails with the "Smile a bit" hint whenever the detector
omits smiling classification; absent yaw/roll default to 0 and absent eye-open
fields default to 0.8, which is above the 0.4 open threshold. -/
theorem missing_optional_fields_default (face : Face) (w h : ℚ) (cl : Checklist)
    (hs : face.smilingProbability = none) :
    (extractMetrics face w h).smileProb = 0
    ∧ (evalFromMetrics (extractMetrics face w h) cl).1.expression.status = CheckStatus.fail
    ∧ (evalFromMetrics (extractMetrics face w h) cl).1.expression.detail = "Smile a bit"
    ∧ (face.leftEyeOpenProbability = none → (extractMetrics face w h).leftEyeOpen = 0.8)
    ∧ (face.rightEyeOpenProbability = none → (extractMetrics face w h).rightEyeOpen = 0.8)
    ∧ (face.headEulerAngleY = none → face.yawAngle = none →
        (extractMetrics face w h).yawAngle = 0)
    ∧ (face.headEulerAngleZ = none → face.rollAngle = none →
        (extractMetrics face w h).rollAngle = 0)
    ∧ THRESHOLDS.EYE_OPEN_THRESHOLD < (0.8 : ℚ) := by
  have hsp : (extractMetrics face w h).smileProb = 0 := by simp [extractMetrics, hs]
  have hns : ¬ ((extractMetrics face w h).smileProb > THRESHOLDS.EXPRESSION_THRESHOLD) := by
    rw [hsp]
    norm_num [THRESHOLDS.EXPRESSION_THRESHOLD]
  refine ⟨hsp, ?_, ?_,
    fun hl => by simp [extractMetrics, hl],
    fun hr => by simp [extractMetrics, hr],
    fun hy hy2 => by simp [extractMetrics, hy, hy2],
    fun hz hz2 => by simp [extractMetrics, hz, hz2],
    by norm_num [THRESHOLDS.EYE_OPEN_THRESHOLD]⟩
  · simp [evalFromMetrics, hns]
  · simp [evalFromMetrics, hns]

/-- Witness for C10 at a face with every optional field absent. -/
theorem missing_optional_fields_default_witness :
    (extractMetrics bareFace 100 100).smileProb = 0
    ∧ (evalFromMetrics (extractMetrics bareFace 100 100) initialChecklist).1.expression.status
        = CheckStatus.fail
    ∧ (evalFromMetrics (extractMetrics bareFace 100 100) initialChecklist).1.expression.detail
        = "Smile a bit"
    ∧ (extractMetrics bareFace 100 100).leftEyeOpen = 0.8
    ∧ (extractMetrics bareFace 100 100).rightEyeOpen = 0.8
    ∧ (extractMetrics bareFace 100 100).yawAngle = 0
    ∧ (extractMetrics bareFace 100 100).rollAngle = 0
    ∧ THRESHOLDS.EYE_OPEN_THRESHOLD < (0.8 : ℚ) := by
  obtain ⟨h1, h2, h3, h4, h5, h6, h7, h8⟩ :=
    missing_optional_fields_default bareFace 100 100 initialChecklist rfl
  exact ⟨h1, h2, h3, h4 rfl, h5 rfl, h6 rfl rfl, h7 rfl rfl, h8⟩
